import Mathlib

/-!
Verification of `validate.py`, a script that batch-validates HTML files
against the W3C markup-validation web service.

The embedding models Python strings as Lean `String`s, with the Python
string operations (`startswith`, `endswith`, slicing) defined over the
underlying character list so that their exact Python semantics
(e.g. slicing past the end of a string is safe) are preserved.

HTTP traffic is modelled by an explicit environment `Env` mapping URLs to
GET responses, POST requests to response bodies, filenames to on-disk
contents, and response bodies to optionally-parsed JSON; each call to
`validate` returns the ordered trace of HTTP requests it issued together
with its result (`Except PyErr Json`, mirroring Python's exceptions).
-/

/-- Python `s.startswith(p)`: `p` is a prefix of `s`. -/
def pyStartsWith (s p : String) : Bool :=
  p.data.isPrefixOf s.data

/-- Python `s.endswith(p)`: `p` is a suffix of `s`. -/
def pyEndsWith (s p : String) : Bool :=
  p.data.isSuffixOf s.data

/-- Python `s[0:n]`: the first `n` characters of `s` (all of `s` when it is
shorter than `n`; slicing past the end of a string is safe in Python). -/
def pySliceTo (s : String) (n : Nat) : String :=
  ⟨s.data.take n⟩

/-- JSON values, as produced by Python's `json` decoding of the validator
response.  Numbers are modelled as integers (the validator's numeric fields,
such as `lastLine`, are integers). -/
inductive Json where
  | null : Json
  | bool (b : Bool) : Json
  | num (n : Int) : Json
  | str (s : String) : Json
  | arr (elems : List Json) : Json
  | obj (fields : List (String × Json)) : Json

/-- Python exceptions the script can raise, by class. -/
inductive PyErr where
  | netError        : PyErr  -- a `requests` exception on GET or POST
  | osError         : PyErr  -- `open(filename, "rb")` failed
  | jsonDecodeError : PyErr  -- `r.json()` on a non-JSON body
  | keyError (k : String) : PyErr  -- `d[k]` on a dict without key `k`
  | typeError       : PyErr  -- indexing / formatting a wrongly-typed value
deriving DecidableEq

/-- The multipart file part of the POST:
`files={"file": (filename, f, "text/html")}`. -/
structure MultipartFile where
  filename : String
  content : List Nat
  contentType : String
deriving DecidableEq

/-- A POST request as built by `requests.post` in `validate`. -/
structure PostReq where
  url : String
  file : MultipartFile
  formData : List (String × String)
  verify : Bool
deriving DecidableEq

/-- An HTTP request issued by the script (GET records the `verify` flag). -/
inductive Req where
  | get (url : String) (verify : Bool) : Req
  | post (req : PostReq) : Req
deriving DecidableEq

/-- A GET response: `requests.get` yields a status code and a body
(`r.content`, a byte string, modelled as a list of bytes). -/
structure GetResponse where
  statusCode : Nat
  content : List Nat

/-- The world the script runs against: GET responses per URL, POST response
bodies per request, on-disk file contents, and JSON decoding of bodies
(`none` when the body is not valid JSON).  `Except Unit` models a raised
`requests` exception; `Option` on `fileContents` models a missing or
unreadable file. -/
structure Env where
  httpGet : String → Except Unit GetResponse
  httpPost : PostReq → Except Unit String
  fileContents : String → Option (List Nat)
  parseJson : String → Option Json

/-- The fixed endpoint
`HTML_VALIDATOR_URL = "http://validator.w3.org/nu/?out=json"`. -/
def HTML_VALIDATOR_URL : String := "http://validator.w3.org/nu/?out=json"

/-- The POST request `validate` builds: fixed endpoint, multipart `file`
field `(filename, f, "text/html")`, form data `out=json, showsource=yes`,
TLS verification disabled. -/
def validatorPost (filename : String) (content : List Nat) : PostReq :=
  { url := HTML_VALIDATOR_URL
    file := { filename := filename, content := content, contentType := "text/html" }
    formData := [("out", "json"), ("showsource", "yes")]
    verify := false }

/-- Mirrors
`is_remote = filename.startswith("http://") or filename.startswith("https://")`. -/
def isRemoteName (filename : String) : Bool :=
  pyStartsWith filename "http://" || pyStartsWith filename "https://"

/-- Mirrors `validate(filename, verbose=False)`: returns the ordered trace of HTTP
requests issued and the result (`r.json()` of the POST response, or the
exception raised).  In the remote case the GET body is buffered
(`f.write(r.content); f.seek(0)`) and those bytes are what the POST uploads;
in the local case the POST uploads the file's on-disk contents. -/
def validate (env : Env) (filename : String) (verbose : Bool) :
    List Req × Except PyErr Json :=
  let _ := verbose  -- the parameter is never used by the body
  if isRemoteName filename then
    match env.httpGet filename with
    | .error _ => ([Req.get filename false], .error .netError)
    | .ok r =>
      let req := validatorPost filename r.content
      match env.httpPost req with
      | .error _ => ([Req.get filename false, Req.post req], .error .netError)
      | .ok body =>
        ([Req.get filename false, Req.post req],
          match env.parseJson body with
          | some j => .ok j
          | none => .error .jsonDecodeError)
  else
    match env.fileContents filename with
    | none => ([], .error .osError)
    | some content =>
      let req := validatorPost filename content
      match env.httpPost req with
      | .error _ => ([Req.post req], .error .netError)
      | .ok body =>
        ([Req.post req],
          match env.parseJson body with
          | some j => .ok j
          | none => .error .jsonDecodeError)

/-- The filename filter of the batch loop:
`file_name.endswith(".html") and file_name[0:3] in ["3-5", "4t", "5t"]`. -/
def nameFilter (file_name : String) : Bool :=
  pyEndsWith file_name ".html" &&
    (["3-5", "4t", "5t"] : List String).contains (pySliceTo file_name 3)

/-- Python `d[k]` on a parsed JSON value: `KeyError` when the key is absent,
`TypeError` when the value is not a dict. -/
def jLookup (j : Json) (k : String) : Except PyErr Json :=
  match j with
  | .obj fields =>
    match fields.lookup k with
    | some v => .ok v
    | none => .error (.keyError k)
  | _ => .error .typeError

/-- Requires a decoded JSON string, as `m["message"].startswith(...)` does
(a non-string has no `startswith`). -/
def asStr (j : Json) : Except PyErr String :=
  match j with
  | .str s => .ok s
  | _ => .error .typeError

/-- Requires an integer, as the `%(lastLine)d` conversion does (Python
`bool` is an `int` subtype, so `True`/`False` format as `1`/`0`). -/
def asInt (j : Json) : Except PyErr Int :=
  match j with
  | .num n => .ok n
  | .bool b => .ok (if b then 1 else 0)
  | _ => .error .typeError

/-- Requires a JSON array, as `for m in messages` does. -/
def asList (j : Json) : Except PyErr (List Json) :=
  match j with
  | .arr xs => .ok xs
  | _ => .error .typeError

/-- Python `repr` of a decoded JSON value (string-escape details elided:
no message in scope contains quotes or backslashes). -/
def pyRepr : Json → String
  | .null => "None"
  | .bool true => "True"
  | .bool false => "False"
  | .num n => toString n
  | .str s => "\x27" ++ s ++ "\x27"
  | .arr xs =>
    "[" ++ String.intercalate ", " (xs.attach.map fun x => pyRepr x.1) ++ "]"
  | .obj kvs =>
    "\x7b" ++
      String.intercalate ", "
        (kvs.attach.map fun kv => "\x27" ++ kv.1.1 ++ "\x27: " ++ pyRepr kv.1.2) ++
      "\x7d"
decreasing_by
  all_goals simp_wf
  · exact Nat.lt_of_lt_of_le (List.sizeOf_lt_of_mem x.2) (by omega)
  · have h1 : sizeOf kv.1.2 < sizeOf kv.1 := by
      obtain ⟨a, b⟩ := kv.1; simp
    have h2 : sizeOf kv.1 < 1 + sizeOf kvs := by
      have := List.sizeOf_lt_of_mem kv.2; omega
    omega

/-- Python `str` of a decoded JSON value, as the `%s` conversion applies it:
identity on strings, `repr` otherwise. -/
def pyStr (j : Json) : String :=
  match j with
  | .str s => s
  | _ => pyRepr j

/-- The two suppressed message prefixes of the batch loop. -/
def suppressedMsg (msg : String) : Bool :=
  pyStartsWith msg "An “img” element must have an “alt” attribute" ||
  pyStartsWith msg "The “name” attribute is obsolete"

/-- Mirrors `"Type: %(type)s, Line: %(lastLine)d, Description: %(message)s" % m`:
the conversions look the keys up left to right and raise on a missing key
or a non-integer `lastLine`. -/
def formatLine (m : Json) : Except PyErr String :=
  match jLookup m "type" with
  | .error e => .error e
  | .ok t =>
    match jLookup m "lastLine" with
    | .error e => .error e
    | .ok lj =>
      match asInt lj with
      | .error e => .error e
      | .ok l =>
        match jLookup m "message" with
        | .error e => .error e
        | .ok mj =>
          .ok ("Type: " ++ pyStr t ++ ", Line: " ++ toString l ++
            ", Description: " ++ pyStr mj)

/-- The inner `for m in messages` loop: the lines printed (in order) and the
exception, if any, that aborted the loop (lines printed before the abort
remain printed). -/
def printMessages : List Json → List String × Option PyErr
  | [] => ([], none)
  | m :: rest =>
    match jLookup m "message" with
    | .error e => ([], some e)
    | .ok mv =>
      match asStr mv with
      | .error e => ([], some e)
      | .ok s =>
        if suppressedMsg s then printMessages rest
        else
          match formatLine m with
          | .error e => ([], some e)
          | .ok line =>
            match printMessages rest with
            | (ls, err) => (line :: ls, err)

/-- Processing of one selected file by the batch loop body:
`print("Processing " + file_name)`, then `validate(file_name)["messages"]`,
then the message loop.  Returns the HTTP trace, the printed lines, and the
exception, if any. -/
def processFile (env : Env) (file_name : String) :
    List Req × List String × Option PyErr :=
  match validate env file_name false with
  | (tr, .error e) => (tr, ["Processing " ++ file_name], some e)
  | (tr, .ok d) =>
    match jLookup d "messages" with
    | .error e => (tr, ["Processing " ++ file_name], some e)
    | .ok mj =>
      match asList mj with
      | .error e => (tr, ["Processing " ++ file_name], some e)
      | .ok msgs =>
        match printMessages msgs with
        | (ls, err) => (tr, ("Processing " ++ file_name) :: ls, err)

/-- The top-level batch loop over a directory listing: process each entry
passing `nameFilter` in order; an uncaught exception aborts the whole
batch (no later entry is looked at).  Returns the full HTTP trace, all
printed lines, and the aborting exception, if any. -/
def runBatch (env : Env) : List String → List Req × List String × Option PyErr
  | [] => ([], [], none)
  | file_name :: rest =>
    if nameFilter file_name then
      match processFile env file_name with
      | (tr, ls, some e) => (tr, ls, some e)
      | (tr, ls, none) =>
        match runBatch env rest with
        | (tr', ls', err') => (tr ++ tr', ls ++ ls', err')
    else runBatch env rest

/-! ### Derived descriptions used in theorem statements -/

/-- A message record as the spec's data model describes it: a JSON object
whose `message` field decodes to a string, with `type` present and
`lastLine` an integer. -/
def msgWellFormed (m : Json) : Prop :=
  (∃ s, jLookup m "message" = .ok (Json.str s)) ∧
  (∃ t, jLookup m "type" = .ok t) ∧
  (∃ l : Int, jLookup m "lastLine" = .ok (Json.num l))

/-- The line the batch loop prints for one well-formed message: `none` when
the message is suppressed, otherwise the formatted diagnostic line. -/
def lineOf (m : Json) : Option String :=
  match jLookup m "message", jLookup m "type", jLookup m "lastLine" with
  | .ok (.str s), .ok t, .ok (.num l) =>
    if suppressedMsg s then none
    else some ("Type: " ++ pyStr t ++ ", Line: " ++ toString l ++
      ", Description: " ++ s)
  | _, _, _ => none

/-! ### Concrete sample data for witnesses -/

/-- The two-message response of the spec's example: an img-alt notice on
line 1 and `Bad tag` on line 2. -/
def sampleMsgs : List Json :=
  [Json.obj [("message", Json.str "An “img” element must have an “alt” attribute ..."),
             ("type", Json.str "error"), ("lastLine", Json.num 1)],
   Json.obj [("message", Json.str "Bad tag"),
             ("type", Json.str "error"), ("lastLine", Json.num 2)]]

/-- A validator response carrying `sampleMsgs`. -/
def sampleResult : Json := Json.obj [("messages", Json.arr sampleMsgs)]

/-- A fault-free world: every GET succeeds with body `[60, 62]`, every POST
succeeds with body `"resp"`, every file holds `[97, 98]`, and `"resp"`
decodes to `sampleResult`. -/
def sampleEnv : Env where
  httpGet := fun _ => .ok { statusCode := 200, content := [60, 62] }
  httpPost := fun _ => .ok "resp"
  fileContents := fun _ => some [97, 98]
  parseJson := fun s => if s = "resp" then some sampleResult else none

/-- A world whose validator always answers with a non-JSON body. -/
def noJsonEnv : Env where
  httpGet := fun _ => .ok { statusCode := 200, content := [60, 62] }
  httpPost := fun _ => .ok "<!DOCTYPE html>"
  fileContents := fun _ => some [97, 98]
  parseJson := fun _ => none

/-- A world where no local file can be opened. -/
def noFileEnv : Env where
  httpGet := fun _ => .ok { statusCode := 200, content := [60, 62] }
  httpPost := fun _ => .ok "resp"
  fileContents := fun _ => none
  parseJson := fun _ => none

/-- The environment `env` with every GET response's status code rewritten
by `newStatus`, bodies left unchanged: used to state that `validate` is
insensitive to GET status codes. -/
def withStatuses (env : Env) (newStatus : String → Nat) : Env :=
  { env with
    httpGet := fun u =>
      (env.httpGet u).map fun r => { r with statusCode := newStatus u } }

/-! ### Helper lemmas -/

theorem pyEndsWith_html_length {s : String} (h : pyEndsWith s ".html" = true) :
    5 ≤ s.data.length := by
  unfold pyEndsWith at h
  rw [List.isSuffixOf_iff_suffix] at h
  simpa using h.length_le

/-- The selection filter of the batch loop, characterised: because a name
ending in `".html"` has at least 5 characters, its 3-character slice never
equals the 2-character strings `"4t"` or `"5t"`, so only the `"3-5"`
alternative of the membership test can fire. -/
theorem nameFilter_iff (s : String) :
    nameFilter s = true ↔ (pyEndsWith s ".html" = true ∧ pySliceTo s 3 = "3-5") := by
  unfold nameFilter
  simp only [Bool.and_eq_true, List.contains_cons, List.contains_nil,
    Bool.or_eq_true, beq_iff_eq, Bool.false_eq_true, or_false]
  constructor
  · rintro ⟨hend, h35 | h4t | h5t⟩
    · exact ⟨hend, h35⟩
    · exfalso
      have hlen := pyEndsWith_html_length hend
      have hdat : s.data.take 3 = "4t".data := congrArg String.data h4t
      have h2 : (s.data.take 3).length = 2 := by rw [hdat]; rfl
      rw [List.length_take] at h2
      omega
    · exfalso
      have hlen := pyEndsWith_html_length hend
      have hdat : s.data.take 3 = "5t".data := congrArg String.data h5t
      have h2 : (s.data.take 3).length = 2 := by rw [hdat]; rfl
      rw [List.length_take] at h2
      omega
  · rintro ⟨hend, h35⟩
    exact ⟨hend, Or.inl h35⟩

theorem validate_remote_trace (env : Env) (target : String) (v : Bool)
    (r : GetResponse) (hrem : isRemoteName target = true)
    (hget : env.httpGet target = .ok r) :
    (validate env target v).1 =
      [Req.get target false, Req.post (validatorPost target r.content)] := by
  unfold validate
  rw [hrem]
  simp only [if_true]
  rw [hget]
  cases h : env.httpPost (validatorPost target r.content) <;> simp [h]

theorem validate_local_trace (env : Env) (target : String) (v : Bool)
    (c : List Nat) (hloc : isRemoteName target = false)
    (hfile : env.fileContents target = some c) :
    (validate env target v).1 = [Req.post (validatorPost target c)] := by
  unfold validate
  rw [hloc]
  simp only [Bool.false_eq_true, if_false]
  rw [hfile]
  cases h : env.httpPost (validatorPost target c) <;> simp [h]

theorem validate_local_no_get (env : Env) (target : String) (v : Bool)
    (hloc : isRemoteName target = false) :
    ∀ u b, Req.get u b ∉ (validate env target v).1 := by
  intro u b
  unfold validate
  rw [hloc]
  simp only [Bool.false_eq_true, if_false]
  cases hf : env.fileContents target with
  | none => simp
  | some c => cases h : env.httpPost (validatorPost target c) <;> simp [h]

/-! ### Claim theorems -/

/-- C1, counterexample: the batch filter does NOT select `"4ty.html"` or
`"5tz.html"` — `file_name[0:3]` of a `.html` name is a 3-character string
and can never equal the 2-character list entries `"4t"`/`"5t"`.  Of the
directory of the claim, only `"3-5a.html"` is selected. -/
theorem c1_counterexample :
    nameFilter "4ty.html" = false ∧ nameFilter "5tz.html" = false ∧
    (["3-5a.html", "4ty.html", "5tz.html", "other.html"].filter
        fun n => nameFilter n) = ["3-5a.html"] :=
  ⟨rfl, rfl, rfl⟩

/-- C1, amended: the batch driver selects exactly the directory entries
whose name ends with `".html"` and whose first three characters equal
`"3-5"`; the list entries `"4t"` and `"5t"` never match, because a name
ending in `".html"` has at least five characters, so its 3-character slice
never equals a 2-character string.  For a directory containing
`"3-5a.html"`, `"4ty.html"`, `"5tz.html"`, `"other.html"`, exactly
`"3-5a.html"` is selected. -/
theorem c1_filter_selects_only_35 :
    (∀ name, nameFilter name = true ↔
      (pyEndsWith name ".html" = true ∧ pySliceTo name 3 = "3-5")) ∧
    (["3-5a.html", "4ty.html", "5tz.html", "other.html"].filter
        fun n => nameFilter n) = ["3-5a.html"] :=
  ⟨fun name => nameFilter_iff name, rfl⟩

/-- Witness for C1's amended theorem at the concrete name `"3-5a.html"`. -/
theorem c1_filter_selects_only_35_witness :
    nameFilter "3-5a.html" = true :=
  (c1_filter_selects_only_35.1 "3-5a.html").mpr ⟨by decide, by decide⟩

/-- C3: a target is treated as remote exactly when it starts with
`"http://"` or `"https://"`; for such a target (with the GET succeeding)
`validate` issues exactly one GET of the target followed by exactly one
POST to the validator endpoint, and the bytes uploaded in the POST's
multipart `file` field equal the GET response body; a non-remote target
never causes a GET. -/
theorem c3_remote_get_then_post (env : Env) (target : String) (v : Bool) :
    ((pyStartsWith target "http://" || pyStartsWith target "https://") = true →
      ∀ r, env.httpGet target = .ok r →
        (validate env target v).1 =
          [Req.get target false, Req.post (validatorPost target r.content)]) ∧
    ((pyStartsWith target "http://" || pyStartsWith target "https://") = false →
      ∀ u b, Req.get u b ∉ (validate env target v).1) :=
  ⟨fun hrem r hget => validate_remote_trace env target v r hrem hget,
   fun hloc u b => validate_local_no_get env target v hloc u b⟩

/-- Witness for C3 at the remote target of the spec's example. -/
theorem c3_remote_get_then_post_witness :
    (validate sampleEnv "https://example.com/page.html" false).1 =
      [Req.get "https://example.com/page.html" false,
       Req.post (validatorPost "https://example.com/page.html" [60, 62])] :=
  (c3_remote_get_then_post sampleEnv "https://example.com/page.html" false).1
    (by decide) { statusCode := 200, content := [60, 62] } rfl

/-- C4: for a local (non-URL) target naming a readable file, `validate`
performs no GET and exactly one POST, to the fixed validator endpoint, and
the uploaded bytes equal the file's on-disk contents. -/
theorem c4_local_single_post (env : Env) (target : String) (v : Bool)
    (hloc : isRemoteName target = false) (content : List Nat)
    (hfile : env.fileContents target = some content) :
    (validate env target v).1 = [Req.post (validatorPost target content)] ∧
    (validatorPost target content).url = HTML_VALIDATOR_URL :=
  ⟨validate_local_trace env target v content hloc hfile, rfl⟩

/-- Witness for C4 at the concrete local target `"3-5a.html"`. -/
theorem c4_local_single_post_witness :
    (validate sampleEnv "3-5a.html" false).1 =
      [Req.post (validatorPost "3-5a.html" [97, 98])] :=
  (c4_local_single_post sampleEnv "3-5a.html" false (by decide) [97, 98] rfl).1

/-- C8: the `verbose` parameter of `validate` has no effect: for every
environment and target, the requests issued and the result returned are
identical for both values. -/
theorem c8_verbose_no_effect :
    ∀ (env : Env) (target : String),
      validate env target true = validate env target false :=
  fun _ _ => rfl

/-- C5: when the validator's response body is not valid JSON, `validate`
propagates a decoding fault to its caller (provided the HTTP calls
themselves succeed and the target is fetchable); in particular it never
returns any value, so the docstring's empty-result fallback is not
provided. -/
theorem c5_nonjson_propagates (env : Env) (target : String) (v : Bool)
    (hjson : ∀ s, env.parseJson s = none)
    (hget : ∀ u, ∃ r, env.httpGet u = .ok r)
    (hpost : ∀ q, ∃ b, env.httpPost q = .ok b)
    (hsrc : isRemoteName target = true ∨ ∃ c, env.fileContents target = some c) :
    (validate env target v).2 = .error PyErr.jsonDecodeError ∧
    ∀ j, (validate env target v).2 ≠ .ok j := by
  have hmain : (validate env target v).2 = .error PyErr.jsonDecodeError := by
    unfold validate
    cases hrem : isRemoteName target with
    | true =>
      simp only [if_true]
      obtain ⟨r, hr⟩ := hget target
      rw [hr]
      obtain ⟨b, hb⟩ := hpost (validatorPost target r.content)
      simp only [hb, hjson b]
    | false =>
      simp only [Bool.false_eq_true, if_false]
      rcases hsrc with hrem' | ⟨c, hc⟩
      · rw [hrem] at hrem'; exact absurd hrem' (by simp)
      · rw [hc]
        obtain ⟨b, hb⟩ := hpost (validatorPost target c)
        simp only [hb, hjson b]
  refine ⟨hmain, fun j hj => ?_⟩
  rw [hmain] at hj
  exact Except.noConfusion hj

/-- Witness for C5: a world whose validator always answers a non-JSON body,
at the local target `"3-5a.html"`. -/
theorem c5_nonjson_propagates_witness :
    (validate noJsonEnv "3-5a.html" false).2 = .error PyErr.jsonDecodeError :=
  (c5_nonjson_propagates noJsonEnv "3-5a.html" false
    (fun _ => rfl) (fun _ => ⟨_, rfl⟩) (fun _ => ⟨_, rfl⟩)
    (Or.inr ⟨[97, 98], rfl⟩)).1

/-- C9: `validate` never inspects the GET response's HTTP status code:
rewriting every GET status (leaving bodies unchanged) leaves the
requests issued and the value returned exactly the same, and in the remote
case the GET body is uploaded by the subsequent POST whatever the
response's status was. -/
theorem c9_status_ignored (env : Env) (newStatus : String → Nat)
    (target : String) (v : Bool) :
    validate (withStatuses env newStatus) target v = validate env target v ∧
    (isRemoteName target = true → ∀ r, env.httpGet target = .ok r →
      (validate env target v).1 =
        [Req.get target false, Req.post (validatorPost target r.content)]) := by
  constructor
  · unfold validate
    cases hrem : isRemoteName target with
    | true =>
      simp only [if_true]
      cases hr : env.httpGet target <;> simp [withStatuses, hr, Except.map]
    | false =>
      simp only [Bool.false_eq_true, if_false]
      simp [withStatuses]
  · exact fun hrem r hget => validate_remote_trace env target v r hrem hget

/-- Witness for C9 at a remote target, rewriting every status to 404. -/
theorem c9_status_ignored_witness :
    (validate sampleEnv "http://example.com/err.html" false).1 =
      [Req.get "http://example.com/err.html" false,
       Req.post (validatorPost "http://example.com/err.html" [60, 62])] :=
  (c9_status_ignored sampleEnv (fun _ => 404) "http://example.com/err.html"
    false).2 (by decide) { statusCode := 200, content := [60, 62] } rfl

/-- C10: every POST `validate` issues carries the target string itself as
the multipart `file` part's filename metadata, with declared content-type
`"text/html"`. -/
theorem c10_post_metadata (env : Env) (target : String) (v : Bool) :
    ∀ q : PostReq, Req.post q ∈ (validate env target v).1 →
      q.file.filename = target ∧ q.file.contentType = "text/html" := by
  intro q hq
  unfold validate at hq
  cases hrem : isRemoteName target with
  | true =>
    simp only [hrem, if_true] at hq
    cases hr : env.httpGet target with
    | error e => simp [hr] at hq
    | ok r =>
      simp only [hr] at hq
      cases hp : env.httpPost (validatorPost target r.content) <;>
        simp [hp] at hq <;> subst hq <;> exact ⟨rfl, rfl⟩
  | false =>
    simp only [hrem, Bool.false_eq_true, if_false] at hq
    cases hf : env.fileContents target with
    | none => simp [hf] at hq
    | some c =>
      simp only [hf] at hq
      cases hp : env.httpPost (validatorPost target c) <;>
        simp [hp] at hq <;> subst hq <;> exact ⟨rfl, rfl⟩

/-- Witness for C10 at the concrete local target `"3-5a.html"`. -/
theorem c10_post_metadata_witness :
    (validatorPost "3-5a.html" [97, 98]).file.filename = "3-5a.html" ∧
    (validatorPost "3-5a.html" [97, 98]).file.contentType = "text/html" :=
  c10_post_metadata sampleEnv "3-5a.html" false
    (validatorPost "3-5a.html" [97, 98]) (by decide)

/-- C2: over any sequence of well-formed messages, the message loop
finishes without fault and prints exactly, in order, one line per
non-suppressed message — a message is suppressed precisely when its
`message` field starts with one of the two fixed literal prefixes — each
surviving line in the exact format
`Type: <type>, Line: <lastLine>, Description: <message>` (as `lineOf`
spells out). -/
theorem c2_message_filter_and_format (msgs : List Json)
    (h : ∀ m ∈ msgs, msgWellFormed m) :
    printMessages msgs = (msgs.filterMap lineOf, none) := by
  induction msgs with
  | nil => rfl
  | cons m rest ih =>
    obtain ⟨⟨s, hs⟩, ⟨t, ht⟩, ⟨l, hl⟩⟩ := h m (List.mem_cons_self m rest)
    have ih' := ih fun m' hm' => h m' (List.mem_cons_of_mem m hm')
    by_cases hsup : suppressedMsg s = true
    · have hnone : lineOf m = none := by
        simp only [lineOf, hs, ht, hl, hsup, if_true]
      simp only [printMessages, hs, asStr, hsup, if_true, ih',
        List.filterMap_cons, hnone]
    · have hline : formatLine m =
          .ok ("Type: " ++ pyStr t ++ ", Line: " ++ toString l ++
            ", Description: " ++ s) := by
        simp only [formatLine, ht, hl, asInt, hs, pyStr]
      have hsome : lineOf m =
          some ("Type: " ++ pyStr t ++ ", Line: " ++ toString l ++
            ", Description: " ++ s) := by
        simp only [lineOf, hs, ht, hl, hsup, Bool.false_eq_true, if_false]
      simp only [printMessages, hs, asStr, hsup, Bool.false_eq_true, if_false,
        hline, ih', List.filterMap_cons, hsome]

/-- Witness for C2 at the spec's two-message example: exactly one line is
printed, verbatim `Type: error, Line: 2, Description: Bad tag`. -/
theorem c2_message_filter_and_format_witness :
    printMessages sampleMsgs =
      (["Type: error, Line: 2, Description: Bad tag"], none) := by
  have h : ∀ m ∈ sampleMsgs, msgWellFormed m := by
    intro m hm
    simp only [sampleMsgs, List.mem_cons, List.not_mem_nil, or_false] at hm
    rcases hm with rfl | rfl
    · exact ⟨⟨_, rfl⟩, ⟨_, rfl⟩, ⟨_, rfl⟩⟩
    · exact ⟨⟨_, rfl⟩, ⟨_, rfl⟩, ⟨_, rfl⟩⟩
  rw [c2_message_filter_and_format sampleMsgs h]
  rfl

/-- C6: the batch driver provides no per-file fault isolation: if
processing the listing `xs` ends in a fault, appending any further
directory entries `ys` changes nothing — no request is issued for them and
no line is printed for them; the batch result is that of `xs` alone, with
the fault propagating. -/
theorem c6_abort_on_fault (env : Env) (xs ys : List String)
    (h : (runBatch env xs).2.2 ≠ none) :
    runBatch env (xs ++ ys) = runBatch env xs := by
  induction xs with
  | nil => simp [runBatch] at h
  | cons x xs ih =>
    by_cases hf : nameFilter x = true
    · rcases hp : processFile env x with ⟨tr, ls, err⟩
      cases err with
      | some e =>
        simp only [List.cons_append, runBatch, hf, if_true, hp]
      | none =>
        have h' : (runBatch env xs).2.2 ≠ none := by
          intro hnone
          apply h
          simp only [runBatch, hf, if_true, hp]
          rcases hq : runBatch env xs with ⟨tr', ls', err'⟩
          rw [hq] at hnone
          simpa using hnone
        simp only [List.cons_append, runBatch, hf, if_true, hp, List.append_eq,
          ih h']
    · simp only [List.cons_append, runBatch, hf, Bool.false_eq_true, if_false]
      exact ih (by simpa only [runBatch, hf, Bool.false_eq_true, if_false] using h)

/-- Witness for C6: with no readable files, the first selected file faults
and the second directory entry is never processed. -/
theorem c6_abort_on_fault_witness :
    runBatch noFileEnv ["3-5a.html", "3-5b.html"] =
      runBatch noFileEnv ["3-5a.html"] :=
  c6_abort_on_fault noFileEnv ["3-5a.html"] ["3-5b.html"] (by decide)

/-- In a fault-free world, the batch output is the concatenation, over the
selected files in listing order, of each file's printed lines. -/
theorem runBatch_clean (env : Env)
    (h : ∀ name, nameFilter name = true → (processFile env name).2.2 = none)
    (l : List String) :
    runBatch env l =
      ((l.filter fun n => nameFilter n).flatMap fun n => (processFile env n).1,
       (l.filter fun n => nameFilter n).flatMap fun n => (processFile env n).2.1,
       none) := by
  induction l with
  | nil => simp [runBatch]
  | cons x l ih =>
    by_cases hf : nameFilter x = true
    · have hx := h x hf
      rcases hp : processFile env x with ⟨tr, ls, err⟩
      rw [hp] at hx
      simp only [] at hx
      subst hx
      simp [runBatch, hf, hp, ih, List.filter_cons_of_pos, List.flatMap_cons]
    · simp [runBatch, hf, ih, List.filter_cons_of_neg, List.flatMap_cons]

/-- C7: for a fixed fault-free mapping from filenames to validator
responses, directory enumerations that are permutations of each other
yield printed outputs that are permutations of each other — the same
multiset (hence set) of lines, only their relative order differing. -/
theorem c7_perm_invariance (env : Env)
    (h : ∀ name, nameFilter name = true → (processFile env name).2.2 = none)
    (l₁ l₂ : List String) (hperm : l₁.Perm l₂) :
    ((runBatch env l₁).2.1).Perm ((runBatch env l₂).2.1) := by
  rw [runBatch_clean env h l₁, runBatch_clean env h l₂]
  exact (hperm.filter _).flatMap_right _

/-- In the fault-free sample world, every file processes cleanly. -/
theorem processFile_sampleEnv (name : String) :
    (processFile sampleEnv name).2.2 = none := by
  unfold processFile validate
  cases hrem : isRemoteName name <;> rfl

/-- Witness for C7 at a concrete two-element listing and its swap. -/
theorem c7_perm_invariance_witness :
    ((runBatch sampleEnv ["3-5a.html", "3-5b.html"]).2.1).Perm
      ((runBatch sampleEnv ["3-5b.html", "3-5a.html"]).2.1) :=
  c7_perm_invariance sampleEnv (fun name _ => processFile_sampleEnv name)
    ["3-5a.html", "3-5b.html"] ["3-5b.html", "3-5a.html"] (by decide)
